import Mathlib

/-!
Verification of the OSINT aggregation engine of this repository: a shallow
embedding of the orchestrator (`app/main.py`) and the five source adapters
(`app/scraper/reddit.py`, `twitter.py`, `telegram.py`, `facebook.py`,
`rss.py`).

External I/O (HTTP responses, browser DOM contents, API client streams) is
modelled as explicit world inputs: each adapter model receives the candidate
items its iteration over the external service would discover, and the pure
collection / matching / limiting logic is translated branch by branch from
the Python source.  Timestamps are modelled as integers (epoch seconds, one
day = 86400); Python string slicing `s[:n]` and the substring test
`needle in hay` are modelled on character lists.
-/

/-- Python `needle in hay` (substring containment), on character lists. -/
def hasSubList (n : List Char) : List Char → Bool
  | [] => n.isEmpty
  | c :: rest => n.isPrefixOf (c :: rest) || hasSubList n rest

/-- Python `needle in hay` on strings (case sensitive; callers lowercase). -/
def occursIn (needle hay : String) : Bool := hasSubList needle.data hay.data

/-- Python slice `s[:n]`. -/
def strTake (n : Nat) (s : String) : String := String.mk (s.data.take n)

/-- Python `s.lower()`, character by character. -/
def strToLower (s : String) : String := String.mk (s.data.map Char.toLower)

/-- Python `s.endswith(suffix)`. -/
def strEndsWith (suffix s : String) : Bool := suffix.data.isSuffixOf s.data

/-- The `SocialMediaPost` pydantic model (`app/main.py` lines 29-36).
Engagement is the metric-name -> count mapping, as an ordered list. -/
structure SocialMediaPost where
  source : String
  content : String
  author : String
  timestamp : Int
  url : Option String
  engagement : Option (List (String × Int))
  media_urls : Option (List String)
deriving DecidableEq, Repr

/-- The `NewsArticle` pydantic model (`app/main.py` lines 39-45). -/
structure NewsArticle where
  title : String
  source : String
  content : String
  author : Option String
  timestamp : Int
  url : String
deriving DecidableEq, Repr

/-- The `ScrapingResult` pydantic model (`app/main.py` lines 48-51).
`stats` is a dict with insertion order, modelled as an association list. -/
structure ScrapingResult where
  social_media_posts : List SocialMediaPost
  news_articles : List NewsArticle
  stats : List (String × Nat)
deriving DecidableEq, Repr

namespace RedditScraper

/-- One PRAW submission, as the Reddit API world presents it to the loops of
`reddit.py`.  `linkUrl` is the submission's `url` attribute, `galleryUrls`
the urls extracted from `media_metadata` for gallery posts. -/
structure RedditPost where
  title : String
  selftext : String
  created_utc : Int
  authorName : String
  score : Int
  numComments : Int
  permalink : String
  linkUrl : Option String
  galleryUrls : List String
deriving DecidableEq, Repr

/-- `_create_social_media_post` (`reddit.py` lines 86-133): extract media
urls, build engagement, combine title and selftext into `content` with no
truncation. -/
def createSocialMediaPost (p : RedditPost) : SocialMediaPost :=
  let media :=
    (match p.linkUrl with
     | some u =>
         if [".jpg", ".jpeg", ".png", ".gif"].any (fun e => strEndsWith e (strToLower u))
         then [u] else []
     | none => []) ++ p.galleryUrls
  { source := "reddit"
  , content := p.title ++ (if p.selftext ≠ "" then "\n\n" ++ p.selftext else "")
  , author := p.authorName
  , timestamp := p.created_utc
  , url := some ("https://www.reddit.com" ++ p.permalink)
  , engagement := some [("upvotes", p.score), ("comments", p.numComments)]
  , media_urls := if media.isEmpty then none else some media }

/-- Inner post loop of `_search_subreddits` (`reddit.py` lines 175-192):
skip posts older than the cutoff, keep posts whose title or selftext
contains a keyword, append, and break once the limit is reached (the check
comes after the append). -/
def streamLoop (kw : List String) (cutoff : Int) (limit : Nat) :
    List RedditPost → List SocialMediaPost → List SocialMediaPost
  | [], acc => acc
  | p :: rest, acc =>
    if p.created_utc < cutoff then streamLoop kw cutoff limit rest acc
    else if kw.any (fun k => occursIn k (strToLower p.title) || occursIn k (strToLower p.selftext)) then
      if limit ≤ (acc ++ [createSocialMediaPost p]).length then acc ++ [createSocialMediaPost p]
      else streamLoop kw cutoff limit rest (acc ++ [createSocialMediaPost p])
    else streamLoop kw cutoff limit rest acc

/-- Loop over the three sort methods of one subreddit (`reddit.py` lines
169-195); each method is asked for at most 25 posts. -/
def sortLoop (kw : List String) (cutoff : Int) (limit : Nat) :
    List (List RedditPost) → List SocialMediaPost → List SocialMediaPost
  | [], acc => acc
  | s :: ss, acc =>
    if limit ≤ acc.length then acc
    else sortLoop kw cutoff limit ss (streamLoop kw cutoff limit (s.take 25) acc)

/-- Loop over the sampled subreddits (`reddit.py` lines 159-204). -/
def subredditLoop (kw : List String) (cutoff : Int) (limit : Nat) :
    List (List (List RedditPost)) → List SocialMediaPost → List SocialMediaPost
  | [], acc => acc
  | sub :: rest, acc =>
    if limit ≤ acc.length then acc
    else subredditLoop kw cutoff limit rest (sortLoop kw cutoff limit sub acc)

/-- The Reddit API world reachable through one praw instance: the sampled
subreddits (each with its new/hot/rising streams, in order) and the
site-wide search stream used by `_search_top_posts`. -/
structure RedditWorld where
  subreddits : List (List (List RedditPost))
  topSearch : List RedditPost
deriving Repr

/-- `_search_subreddits` (`reddit.py` lines 135-207).  The `Option` instance
models `_get_reddit_instance`: `none` is the caught setup failure (praw
could not be created), in which case the function returns the empty list. -/
def searchSubreddits (inst : Option RedditWorld) (keywords : List String)
    (limit daysBack : Nat) (now : Int) : List SocialMediaPost :=
  match inst with
  | none => []
  | some w =>
      subredditLoop (keywords.map strToLower)
        (now - (daysBack : Int) * 86400) limit w.subreddits []

/-- Collection loop of `_search_top_posts` (`reddit.py` lines 226-242): no
client-side keyword filter (the query is server side), recency skip, append
then break at the limit. -/
def topLoop (limit : Nat) (cutoff : Int) :
    List RedditPost → List SocialMediaPost → List SocialMediaPost
  | [], acc => acc
  | p :: rest, acc =>
    if p.created_utc < cutoff then topLoop limit cutoff rest acc
    else
      if limit ≤ (acc ++ [createSocialMediaPost p]).length then acc ++ [createSocialMediaPost p]
      else topLoop limit cutoff rest (acc ++ [createSocialMediaPost p])

/-- `_search_top_posts` (`reddit.py` lines 209-248); the search stream is
asked for at most 50 posts. -/
def searchTopPosts (inst : Option RedditWorld) (limit daysBack : Nat) (now : Int) :
    List SocialMediaPost :=
  match inst with
  | none => []
  | some w => topLoop limit (now - (daysBack : Int) * 86400) (w.topSearch.take 50) []

/-- `RedditScraper.search` (`reddit.py` lines 44-68): subreddit search first;
if it yields less than 50% of the requested limit, the top-posts step runs
with the remaining quota.  The second component records whether the
top-posts fallback step was invoked. -/
def search (inst : Option RedditWorld) (keywords : List String)
    (limit daysBack : Nat) (now : Int) : List SocialMediaPost × Bool :=
  let results := searchSubreddits inst keywords limit daysBack now
  if 2 * results.length < limit then
    (results ++ searchTopPosts inst (limit - results.length) daysBack now, true)
  else (results, false)

end RedditScraper

namespace TwitterScraper

/-- One tweet as yielded by the snscrape stream (`twitter.py` lines 110-135). -/
structure Tweet where
  content : String
  username : String
  date : Int
  tweetId : String
  likeCount : Int
  replyCount : Int
  retweetCount : Int
  mediaUrls : List String
deriving DecidableEq, Repr

/-- Post built in `_search_with_snscrape`'s collection loop
(`twitter.py` lines 114-135). -/
def tweetToPost (t : Tweet) : SocialMediaPost :=
  { source := "twitter"
  , content := t.content
  , author := t.username
  , timestamp := t.date
  , url := some ("https://twitter.com/" ++ t.username ++ "/status/" ++ t.tweetId)
  , engagement := some [("likes", t.likeCount), ("replies", t.replyCount), ("retweets", t.retweetCount)]
  , media_urls := if t.mediaUrls.isEmpty then none else some t.mediaUrls }

/-- Collection loop of `_search_with_snscrape` (`twitter.py` lines 110-138):
break before appending once the limit is reached. -/
def snscrapeLoop (limit : Nat) : List Tweet → List SocialMediaPost → List SocialMediaPost
  | [], acc => acc
  | t :: rest, acc =>
    if limit ≤ acc.length then acc
    else snscrapeLoop limit rest (acc ++ [tweetToPost t])

/-- One tweet as scraped from an account page by the Playwright fallback
(`twitter.py` lines 201-266), with the engagement counts the selector
extraction yields. -/
structure PwTweet where
  text : String
  likes : Int
  retweets : Int
  replies : Int
  mediaUrls : List String
  tweetUrl : Option String
deriving DecidableEq, Repr

/-- Post object built by the Playwright fallback (`twitter.py` lines
256-264): content stored untruncated, fabricated now() timestamp. -/
def pwTweetToPost (t : PwTweet) (account : String) (now : Int) : SocialMediaPost :=
  { source := "twitter"
  , content := t.text
  , author := account
  , timestamp := now
  , url := t.tweetUrl
  , engagement := some [("likes", t.likes), ("retweets", t.retweets), ("replies", t.replies)]
  , media_urls := if t.mediaUrls.isEmpty then none else some t.mediaUrls }

/-- Per-tweet loop of `_search_with_playwright` (`twitter.py` lines 201-266):
limit check before processing, case-insensitive keyword filter. -/
def pwTweetLoop (kw : List String) (account : String) (limit : Nat) (now : Int) :
    List PwTweet → List SocialMediaPost → List SocialMediaPost
  | [], acc => acc
  | t :: rest, acc =>
    if limit ≤ acc.length then acc
    else if kw.any (fun k => occursIn k (strToLower t.text)) then
      pwTweetLoop kw account limit now rest (acc ++ [pwTweetToPost t account now])
    else pwTweetLoop kw account limit now rest acc

/-- Account loop of `_search_with_playwright` (`twitter.py` lines 165-274). -/
def pwAccountLoop (kw : List String) (limit : Nat) (now : Int) :
    List (String × List PwTweet) → List SocialMediaPost → List SocialMediaPost
  | [], acc => acc
  | a :: rest, acc =>
    if limit ≤ acc.length then acc
    else pwAccountLoop kw limit now rest (pwTweetLoop kw a.fst limit now a.snd acc)

/-- `_search_with_playwright` (`twitter.py` lines 146-283).  `days_back` is
accepted but the cutoff computed from it at line 153 is never used. -/
def searchWithPlaywright (accounts : List (String × List PwTweet))
    (keywords : List String) (limit : Nat) (_daysBack : Nat) (now : Int) :
    List SocialMediaPost :=
  pwAccountLoop (keywords.map strToLower) limit now accounts []

/-- `TwitterScraper.search` (`twitter.py` lines 51-82): snscrape first
(modelled as a world function of keywords, location and days_back that
either yields the tweet stream or raises); on an exception or zero results
the Playwright fallback runs.  The second component records whether the
fallback step was invoked. -/
def search (snscrapeRun : List String → Option String → Nat → Except String (List Tweet))
    (accounts : List (String × List PwTweet)) (keywords : List String)
    (location : Option String) (limit daysBack : Nat) (now : Int) :
    List SocialMediaPost × Bool :=
  match snscrapeRun keywords location daysBack with
  | Except.ok ts =>
      let results := snscrapeLoop limit ts []
      if 0 < results.length then (results, false)
      else (searchWithPlaywright accounts keywords limit daysBack now, true)
  | Except.error _ => (searchWithPlaywright accounts keywords limit daysBack now, true)

end TwitterScraper

namespace TelegramScraper

/-- The broader keyword list of `telegram.py` lines 53-54. -/
def broader_keywords : List String :=
  ["security", "intelligence", "cyber", "threat", "hack", "breach", "malware",
   "ransomware", "attack", "vulnerability", "exploit", "virus", "phishing", "data"]

/-- One message element of a channel page: the text the content selectors
yield (empty if none), the `datetime` attribute of the date element when
present (as an instant), the message link, and extracted media urls. -/
structure TgMessage where
  content : String
  datetimeAttr : Option Int
  msgUrl : Option String
  mediaUrls : List String
deriving DecidableEq, Repr

/-- One public channel; `accessible` is false when navigation fails or the
channel is private (the channel is then skipped). -/
structure TgChannel where
  name : String
  accessible : Bool
  messages : List TgMessage
deriving DecidableEq, Repr

/-- Post object built at `telegram.py` lines 271-280: content stored
untruncated, timestamp from the datetime attribute when present, otherwise
now(). -/
def mkTgPost (m : TgMessage) (channel : String) (now : Int) : SocialMediaPost :=
  { source := "telegram"
  , content := m.content
  , author := channel
  , timestamp := m.datetimeAttr.getD now
  , url := m.msgUrl
  , engagement := none
  , media_urls := if m.mediaUrls.isEmpty then none else some m.mediaUrls }

/-- Message loop of one channel (`telegram.py` lines 198-287): limit check
before processing, skip empty content, accept when a user keyword or a
broader keyword occurs in the lowercased content.  No date filter. -/
def messagesLoop (kw : List String) (channel : String) (limit : Nat) (now : Int) :
    List TgMessage → List SocialMediaPost → List SocialMediaPost
  | [], acc => acc
  | m :: rest, acc =>
    if limit ≤ acc.length then acc
    else if m.content = "" then messagesLoop kw channel limit now rest acc
    else
      let cl := strToLower m.content
      let keywordsMatch := kw.any (fun k => occursIn k cl)
      let broaderMatch := broader_keywords.any (fun k => occursIn k cl)
      if !keywordsMatch && !broaderMatch then messagesLoop kw channel limit now rest acc
      else messagesLoop kw channel limit now rest (acc ++ [mkTgPost m channel now])

/-- Channel loop (`telegram.py` lines 81-293). -/
def channelsLoop (kw : List String) (limit : Nat) (now : Int) :
    List TgChannel → List SocialMediaPost → List SocialMediaPost
  | [], acc => acc
  | c :: rest, acc =>
    if limit ≤ acc.length then acc
    else if !c.accessible then channelsLoop kw limit now rest acc
    else channelsLoop kw limit now rest (messagesLoop kw c.name limit now c.messages acc)

/-- `TelegramScraper.search` (`telegram.py` lines 34-302).  The cutoff date
computed from `days_back` at line 57 is never used afterwards: the result
does not depend on it. -/
def search (channels : List TgChannel) (keywords : List String)
    (limit daysBack : Nat) (now : Int) : List SocialMediaPost :=
  let kwl := keywords.map strToLower
  let _cutoff : Int := now - (daysBack : Int) * 86400
  channelsLoop kwl limit now channels []

end TelegramScraper

namespace FacebookScraper

/-- The broader cybersecurity term list of `facebook.py` lines 67-69. -/
def broader_terms : List String :=
  ["cyber", "security", "threat", "hack", "breach", "malware", "ransomware",
   "vulnerability", "attack", "data", "leak", "privacy", "exploit", "scam",
   "phishing", "virus", "trojan", "botnet", "cybercrime"]

/-- The very broad technology term list of `facebook.py` lines 72-74. -/
def tech_terms : List String :=
  ["tech", "digital", "online", "internet", "computing", "software", "hardware",
   "app", "network", "cloud", "web", "device", "computer", "artificial intelligence",
   "ai", "data"]

/-- One public Facebook page: its name, the url that loaded, and the inner
texts of the post elements the selectors find, in order. -/
structure FbPage where
  name : String
  pageUrl : String
  texts : List String
deriving DecidableEq, Repr

/-- Post object built at `facebook.py` lines 223-231: content truncated to
1000 characters, author is the page name, timestamp fabricated as now(). -/
def mkFbPost (content pageName pageUrl : String) (now : Int) : SocialMediaPost :=
  { source := "facebook"
  , content := strTake 1000 content
  , author := pageName
  , timestamp := now
  , url := some pageUrl
  , engagement := none
  , media_urls := none }

/-- Post-candidate loop of `_scrape_facebook` (`facebook.py` lines 194-237):
limit check before processing, skip content shorter than 20 characters,
then the three-tier matching of lines 207-220 (with the lenient branch for
an empty accumulator). -/
def postsLoop (kw : List String) (pageName pageUrl : String) (limit : Nat) (now : Int) :
    List String → List SocialMediaPost → List SocialMediaPost
  | [], acc => acc
  | content :: rest, acc =>
    if limit ≤ acc.length then acc
    else if content.length < 20 then postsLoop kw pageName pageUrl limit now rest acc
    else
      let cl := strToLower content
      let keywordsMatch := kw.any (fun k => occursIn k cl)
      let broaderMatch := broader_terms.any (fun t => occursIn t cl)
      let techMatch := tech_terms.any (fun t => occursIn t cl)
      if acc.isEmpty && !(keywordsMatch || broaderMatch) then
        if !techMatch then postsLoop kw pageName pageUrl limit now rest acc
        else postsLoop kw pageName pageUrl limit now rest (acc ++ [mkFbPost content pageName pageUrl now])
      else if !(keywordsMatch || broaderMatch || techMatch) then
        postsLoop kw pageName pageUrl limit now rest acc
      else postsLoop kw pageName pageUrl limit now rest (acc ++ [mkFbPost content pageName pageUrl now])

/-- Page loop of `_scrape_facebook` (`facebook.py` lines 126-251). -/
def pagesLoop (kw : List String) (limit : Nat) (now : Int) :
    List FbPage → List SocialMediaPost → List SocialMediaPost
  | [], acc => acc
  | pg :: rest, acc =>
    if limit ≤ acc.length then acc
    else pagesLoop kw limit now rest (postsLoop kw pg.name pg.pageUrl limit now pg.texts acc)

/-- `_scrape_facebook` (`facebook.py` lines 97-260).  It receives
`cutoff_date` but never uses it: every produced post gets a now()
timestamp. -/
def scrapeFacebook (kw : List String) (pages : List FbPage) (limit : Nat)
    (_cutoff : Int) (now : Int) : List SocialMediaPost :=
  pagesLoop kw limit now pages []

/-- One RSS entry of the fallback feeds: title (empty when absent), the
HTML-stripped text of its summary/content (empty when absent), the parsed
publication instant when present, and the link. -/
structure FbRssEntry where
  title : String
  textContent : String
  published : Option Int
  link : Option String
deriving DecidableEq, Repr

/-- Post object built at `facebook.py` lines 332-340: source is still
"facebook", the author is the feed's key name, content is
title + blank line + text truncated to 1000 characters. -/
def mkFbRssPost (e : FbRssEntry) (srcName : String) (published : Int) : SocialMediaPost :=
  { source := "facebook"
  , content := strTake 1000 (e.title ++ "\n\n" ++ e.textContent)
  , author := srcName
  , timestamp := published
  , url := e.link
  , engagement := none
  , media_urls := none }

/-- Entry loop of `_scrape_rss_feeds` (`facebook.py` lines 286-347): limit
check before processing, skip empty content, three-tier matching on content
and title (lines 309-320, same shape as the direct path), then the recency
filter of lines 322-329 (entries without a parsed date count as now()). -/
def rssEntryLoop (kw : List String) (srcName : String) (limit : Nat) (cutoff now : Int) :
    List FbRssEntry → List SocialMediaPost → List SocialMediaPost
  | [], acc => acc
  | e :: rest, acc =>
    if limit ≤ acc.length then acc
    else if e.textContent = "" then rssEntryLoop kw srcName limit cutoff now rest acc
    else
      let cl := strToLower e.textContent
      let tl := strToLower e.title
      let keywordsMatch := kw.any (fun k => occursIn k cl || occursIn k tl)
      let broaderMatch := broader_terms.any (fun t => occursIn t cl || occursIn t tl)
      let techMatch := tech_terms.any (fun t => occursIn t cl || occursIn t tl)
      if acc.isEmpty && !(keywordsMatch || broaderMatch) then
        if !techMatch then rssEntryLoop kw srcName limit cutoff now rest acc
        else
          let published := e.published.getD now
          if published < cutoff then rssEntryLoop kw srcName limit cutoff now rest acc
          else rssEntryLoop kw srcName limit cutoff now rest (acc ++ [mkFbRssPost e srcName published])
      else if !(keywordsMatch || broaderMatch || techMatch) then
        rssEntryLoop kw srcName limit cutoff now rest acc
      else
        let published := e.published.getD now
        if published < cutoff then rssEntryLoop kw srcName limit cutoff now rest acc
        else rssEntryLoop kw srcName limit cutoff now rest (acc ++ [mkFbRssPost e srcName published])

/-- Feed loop of `_scrape_rss_feeds` (`facebook.py` lines 272-351), over the
RSS_FEEDS table (key name, fetched entries). -/
def rssFeedsLoop (kw : List String) (limit : Nat) (cutoff now : Int) :
    List (String × List FbRssEntry) → List SocialMediaPost → List SocialMediaPost
  | [], acc => acc
  | f :: rest, acc =>
    if limit ≤ acc.length then acc
    else rssFeedsLoop kw limit cutoff now rest (rssEntryLoop kw f.fst limit cutoff now f.snd acc)

/-- `_scrape_rss_feeds` (`facebook.py` lines 262-354). -/
def scrapeRssFeeds (kw : List String) (feeds : List (String × List FbRssEntry))
    (limit daysBack : Nat) (now : Int) : List SocialMediaPost :=
  rssFeedsLoop kw limit (now - (daysBack : Int) * 86400) now feeds []

/-- `FacebookScraper.search` (`facebook.py` lines 47-95): direct scraping
first; if it yields fewer than `limit` items, the RSS fallback runs with the
remaining quota; the final result is sliced to `limit`.  The second
component records whether the RSS fallback step was invoked. -/
def search (pages : List FbPage) (feeds : List (String × List FbRssEntry))
    (keywords : List String) (limit daysBack : Nat) (now : Int) :
    List SocialMediaPost × Bool :=
  let kwl := keywords.map strToLower
  let cutoff := now - (daysBack : Int) * 86400
  let results := scrapeFacebook kwl pages limit cutoff now
  if results.length < limit then
    ((results ++ scrapeRssFeeds kwl feeds (limit - results.length) daysBack now).take limit, true)
  else (results.take limit, false)

end FacebookScraper

namespace RSSFeedScraper

/-- One entry of one of the FEED_SOURCES feeds: title, summary and link as
the feed presents them (with the empty-string defaults of `entry.get`), the
publication instant, the optional author, and the article content that
`fetch_article_content` returns for its link (already bounded to about 5000
characters by that function). -/
structure FeedEntry where
  title : String
  summary : String
  link : String
  published : Int
  entryAuthor : Option String
  fetchedContent : String
deriving DecidableEq, Repr

/-- The `contains_keywords` closure (`rss.py` lines 69-74). -/
def containsKeywords (keywords : List String) (text : String) : Bool :=
  keywords.any (fun k => occursIn (strToLower k) (strToLower text))

/-- Article built at `rss.py` lines 96-123. -/
def mkArticle (srcName : String) (e : FeedEntry) : NewsArticle :=
  { title := e.title
  , source := srcName
  , content := if e.link ≠ "" then e.fetchedContent else e.summary
  , author := some (e.entryAuthor.getD "Unknown")
  , timestamp := e.published
  , url := e.link }

/-- Entry loop (`rss.py` lines 86-125): break before appending once the
limit is reached; accept entries whose title or summary contains a keyword. -/
def entriesLoop (kw : List String) (srcName : String) (limit : Nat) :
    List FeedEntry → List NewsArticle → List NewsArticle
  | [], acc => acc
  | e :: rest, acc =>
    if limit ≤ acc.length then acc
    else if containsKeywords kw e.title || containsKeywords kw e.summary then
      entriesLoop kw srcName limit rest (acc ++ [mkArticle srcName e])
    else entriesLoop kw srcName limit rest acc

/-- Feed loop (`rss.py` lines 78-129); there is no limit check at the feed
level, only inside the entry loop. -/
def feedsLoop (kw : List String) (limit : Nat) :
    List (String × List FeedEntry) → List NewsArticle → List NewsArticle
  | [], acc => acc
  | f :: rest, acc => feedsLoop kw limit rest (entriesLoop kw f.fst limit f.snd acc)

/-- `RSSFeedScraper.search` (`rss.py` lines 54-136).  Note it takes no
days_back parameter at all. -/
def search (feeds : List (String × List FeedEntry)) (keywords : List String)
    (limit : Nat) : List NewsArticle :=
  feedsLoop keywords limit feeds []

end RSSFeedScraper

/-! ## The orchestrator (`app/main.py`) -/

/-- The payload of one gathered task: a list of posts for the four social
scrapers, a list of articles for RSS (the Python list is untyped; the index
decides how it is used). -/
inductive Payload where
  | posts : List SocialMediaPost → Payload
  | articles : List NewsArticle → Payload
deriving DecidableEq, Repr

/-- Python `len(result)` (`main.py` line 122). -/
def Payload.count : Payload → Nat
  | posts l => l.length
  | articles l => l.length

def Payload.postList : Payload → List SocialMediaPost
  | posts l => l
  | articles _ => []

def Payload.articleList : Payload → List NewsArticle
  | posts _ => []
  | articles l => l

/-- `source_names` (`main.py` line 105). -/
def source_names : List String := ["Reddit", "Twitter", "Telegram", "Facebook", "RSS"]

/-- One iteration of the result-processing loop of `scrape_data`
(`main.py` lines 114-132): an exception outcome records a zero stat and
contributes no items; a successful outcome records its length and is
appended to the social list (index 0-3) or the news list (index 4). -/
def processResult (acc : ScrapingResult) (ir : Nat × Except String Payload) : ScrapingResult :=
  let source := source_names.getD ir.fst ""
  match ir.snd with
  | Except.error _ => { acc with stats := acc.stats ++ [(source, 0)] }
  | Except.ok payload =>
      let acc2 := { acc with stats := acc.stats ++ [(source, payload.count)] }
      if ir.fst ≤ 3 then
        { acc2 with social_media_posts := acc2.social_media_posts ++ payload.postList }
      else if ir.fst = 4 then
        { acc2 with news_articles := acc2.news_articles ++ payload.articleList }
      else acc2

/-- The merge step of `scrape_data` (`main.py` lines 96-141): the five task
outcomes, gathered with return_exceptions=True in registration order
Reddit, Twitter, Telegram, Facebook, RSS, folded through the processing
loop. -/
def scrape_data (reddit twitter telegram facebook : Except String (List SocialMediaPost))
    (rss : Except String (List NewsArticle)) : ScrapingResult :=
  let results : List (Except String Payload) :=
    [reddit.map Payload.posts, twitter.map Payload.posts, telegram.map Payload.posts,
     facebook.map Payload.posts, rss.map Payload.articles]
  results.enum.foldl processResult
    { social_media_posts := [], news_articles := [], stats := [] }

/-- The items a gathered outcome contributes to the report ([] on failure). -/
def itemsOf {α : Type} : Except String (List α) → List α
  | Except.error _ => []
  | Except.ok l => l

/-- The stat `scrape_data` records for an outcome: 0 on failure, the item
count on success. -/
def statOf {α : Type} (o : Except String (List α)) : Nat := (itemsOf o).length

/-- Whether an outcome reached the orchestrator as a failure. -/
def isFailedOutcome {α : Type} : Except String α → Bool
  | Except.error _ => true
  | Except.ok _ => false

/-- The whole external world one query runs against. -/
structure ScrapeWorld where
  redditInst : Option RedditScraper.RedditWorld
  snscrapeRun : List String → Option String → Nat → Except String (List TwitterScraper.Tweet)
  twitterAccounts : List (String × List TwitterScraper.PwTweet)
  telegramChannels : List TelegramScraper.TgChannel
  facebookPages : List FacebookScraper.FbPage
  facebookFeeds : List (String × List FacebookScraper.FbRssEntry)
  rssFeeds : List (String × List RSSFeedScraper.FeedEntry)
  now : Int

/-- Task construction and gather of `scrape_data` (`main.py` lines 96-108)
composed with the merge: each adapter model completes normally (each one
catches its internal failures), so every task outcome is ok of its result
list. -/
def run_scrape (w : ScrapeWorld) (keywords : List String) (location : Option String)
    (days_back limit_per_source : Nat) : ScrapingResult :=
  scrape_data
    (Except.ok (RedditScraper.search w.redditInst keywords limit_per_source days_back w.now).fst)
    (Except.ok (TwitterScraper.search w.snscrapeRun w.twitterAccounts keywords location
        limit_per_source days_back w.now).fst)
    (Except.ok (TelegramScraper.search w.telegramChannels keywords limit_per_source days_back w.now))
    (Except.ok (FacebookScraper.search w.facebookPages w.facebookFeeds keywords
        limit_per_source days_back w.now).fst)
    (Except.ok (RSSFeedScraper.search w.rssFeeds keywords limit_per_source))

/-- The AssetClass enum (`main.py` lines 11-18). -/
inductive AssetClass where
  | person | organization | location | event | infrastructure | technology | other
deriving DecidableEq, Repr

/-- The SearchRequest model (`main.py` lines 21-26). -/
structure SearchRequest where
  keywords : List String
  location : Option String
  asset_class : Option AssetClass
  days_back : Nat
  limit_per_source : Nat

/-- The POST /api/search handler `search_with_fields` (`main.py` lines
165-189): it forwards keywords, location, days_back and limit_per_source to
`scrape_data`; asset_class is only logged in a placeholder branch and never
applied to the result. -/
def search_with_fields (w : ScrapeWorld) (req : SearchRequest) : ScrapingResult :=
  run_scrape w req.keywords req.location req.days_back req.limit_per_source

/-- The outcome of one Reddit adapter invocation as the gather sees it: the
Python body of `RedditScraper.search` raises nothing itself (every external
call inside it is wrapped in try/except, and a failed `_get_reddit_instance`
is caught and turned into None), so the task completes normally with its
result list. -/
def redditInvocationOutcome (inst : Option RedditScraper.RedditWorld)
    (keywords : List String) (limit daysBack : Nat) (now : Int) :
    Except String (List SocialMediaPost) :=
  Except.ok (RedditScraper.search inst keywords limit daysBack now).fst

/-! ## Per-adapter limit bounds -/

namespace RedditScraper

theorem streamLoop_length_le (kw : List String) (cutoff : Int) (limit : Nat)
    (ps : List RedditPost) : ∀ acc : List SocialMediaPost, acc.length < limit →
    (streamLoop kw cutoff limit ps acc).length ≤ limit := by
  induction ps with
  | nil => intro acc h; exact Nat.le_of_lt h
  | cons p rest ih =>
    intro acc h
    simp only [streamLoop]
    split_ifs with h1 h2 h3
    · exact ih acc h
    · simp only [List.length_append, List.length_cons, List.length_nil]
      omega
    · exact ih _ (by simp only [List.length_append, List.length_cons, List.length_nil] at h3 ⊢; omega)
    · exact ih acc h

theorem sortLoop_length_le (kw : List String) (cutoff : Int) (limit : Nat)
    (ss : List (List RedditPost)) : ∀ acc : List SocialMediaPost, acc.length ≤ limit →
    (sortLoop kw cutoff limit ss acc).length ≤ limit := by
  induction ss with
  | nil => intro acc h; exact h
  | cons s ss ih =>
    intro acc h
    simp only [sortLoop]
    split_ifs with h1
    · exact h
    · exact ih _ (streamLoop_length_le kw cutoff limit (s.take 25) acc (by omega))

theorem subredditLoop_length_le (kw : List String) (cutoff : Int) (limit : Nat)
    (subs : List (List (List RedditPost))) : ∀ acc : List SocialMediaPost, acc.length ≤ limit →
    (subredditLoop kw cutoff limit subs acc).length ≤ limit := by
  induction subs with
  | nil => intro acc h; exact h
  | cons sub rest ih =>
    intro acc h
    simp only [subredditLoop]
    split_ifs with h1
    · exact h
    · exact ih _ (sortLoop_length_le kw cutoff limit sub acc h)

theorem searchSubreddits_length_le (inst : Option RedditWorld) (keywords : List String)
    (limit daysBack : Nat) (now : Int) :
    (searchSubreddits inst keywords limit daysBack now).length ≤ limit := by
  cases inst with
  | none => simp [searchSubreddits]
  | some w =>
      exact subredditLoop_length_le _ _ limit w.subreddits [] (Nat.zero_le limit)

theorem topLoop_length_le (limit : Nat) (cutoff : Int) (ps : List RedditPost) :
    ∀ acc : List SocialMediaPost, acc.length < limit →
    (topLoop limit cutoff ps acc).length ≤ limit := by
  induction ps with
  | nil => intro acc h; exact Nat.le_of_lt h
  | cons p rest ih =>
    intro acc h
    simp only [topLoop]
    split_ifs with h1 h2
    · exact ih acc h
    · simp only [List.length_append, List.length_cons, List.length_nil]
      omega
    · exact ih _ (by simp only [List.length_append, List.length_cons, List.length_nil] at h2 ⊢; omega)

theorem searchTopPosts_length_le (inst : Option RedditWorld) (limit daysBack : Nat)
    (now : Int) (hl : 0 < limit) : (searchTopPosts inst limit daysBack now).length ≤ limit := by
  cases inst with
  | none => simp [searchTopPosts]
  | some w => exact topLoop_length_le limit _ (w.topSearch.take 50) [] (by simpa using hl)

theorem redditSearch_length_le (inst : Option RedditWorld) (keywords : List String)
    (limit daysBack : Nat) (now : Int) :
    (search inst keywords limit daysBack now).fst.length ≤ limit := by
  have hsub := searchSubreddits_length_le inst keywords limit daysBack now
  simp only [search]
  split_ifs with h
  · have hrem : 0 < limit - (searchSubreddits inst keywords limit daysBack now).length := by omega
    have htop := searchTopPosts_length_le inst
      (limit - (searchSubreddits inst keywords limit daysBack now).length) daysBack now hrem
    simp only [List.length_append]
    omega
  · exact hsub

end RedditScraper

namespace TwitterScraper

theorem snscrapeLoop_length_le (limit : Nat) (ts : List Tweet) :
    ∀ acc : List SocialMediaPost, acc.length ≤ limit →
    (snscrapeLoop limit ts acc).length ≤ limit := by
  induction ts with
  | nil => intro acc h; exact h
  | cons t rest ih =>
    intro acc h
    simp only [snscrapeLoop]
    split_ifs with h1
    · exact h
    · exact ih _ (by simp only [List.length_append, List.length_cons, List.length_nil]; omega)

theorem pwTweetLoop_length_le (kw : List String) (account : String) (limit : Nat) (now : Int)
    (ts : List PwTweet) : ∀ acc : List SocialMediaPost, acc.length ≤ limit →
    (pwTweetLoop kw account limit now ts acc).length ≤ limit := by
  induction ts with
  | nil => intro acc h; exact h
  | cons t rest ih =>
    intro acc h
    simp only [pwTweetLoop]
    split_ifs with h1 h2
    · exact h
    · exact ih _ (by simp only [List.length_append, List.length_cons, List.length_nil]; omega)
    · exact ih acc h

theorem pwAccountLoop_length_le (kw : List String) (limit : Nat) (now : Int)
    (accounts : List (String × List PwTweet)) : ∀ acc : List SocialMediaPost, acc.length ≤ limit →
    (pwAccountLoop kw limit now accounts acc).length ≤ limit := by
  induction accounts with
  | nil => intro acc h; exact h
  | cons a rest ih =>
    intro acc h
    simp only [pwAccountLoop]
    split_ifs with h1
    · exact h
    · exact ih _ (pwTweetLoop_length_le kw a.fst limit now a.snd acc h)

theorem searchWithPlaywright_length_le (accounts : List (String × List PwTweet))
    (keywords : List String) (limit daysBack : Nat) (now : Int) :
    (searchWithPlaywright accounts keywords limit daysBack now).length ≤ limit :=
  pwAccountLoop_length_le _ limit now accounts [] (Nat.zero_le limit)

theorem twitterSearch_length_le
    (snscrapeRun : List String → Option String → Nat → Except String (List Tweet))
    (accounts : List (String × List PwTweet)) (keywords : List String)
    (location : Option String) (limit daysBack : Nat) (now : Int) :
    (search snscrapeRun accounts keywords location limit daysBack now).fst.length ≤ limit := by
  simp only [search]
  cases snscrapeRun keywords location daysBack with
  | error e => exact searchWithPlaywright_length_le accounts keywords limit daysBack now
  | ok ts =>
      simp only []
      split_ifs with h
      · exact snscrapeLoop_length_le limit ts [] (Nat.zero_le limit)
      · exact searchWithPlaywright_length_le accounts keywords limit daysBack now

end TwitterScraper

namespace TelegramScraper

theorem messagesLoop_length_le (kw : List String) (channel : String) (limit : Nat) (now : Int)
    (ms : List TgMessage) : ∀ acc : List SocialMediaPost, acc.length ≤ limit →
    (messagesLoop kw channel limit now ms acc).length ≤ limit := by
  induction ms with
  | nil => intro acc h; exact h
  | cons m rest ih =>
    intro acc h
    simp only [messagesLoop]
    split_ifs with h1 h2 h3
    · exact h
    · exact ih acc h
    · exact ih acc h
    · exact ih _ (by simp only [List.length_append, List.length_cons, List.length_nil]; omega)

theorem channelsLoop_length_le (kw : List String) (limit : Nat) (now : Int)
    (cs : List TgChannel) : ∀ acc : List SocialMediaPost, acc.length ≤ limit →
    (channelsLoop kw limit now cs acc).length ≤ limit := by
  induction cs with
  | nil => intro acc h; exact h
  | cons c rest ih =>
    intro acc h
    simp only [channelsLoop]
    split_ifs with h1 h2
    · exact h
    · exact ih acc h
    · exact ih _ (messagesLoop_length_le kw c.name limit now c.messages acc h)

theorem telegramSearch_length_le (channels : List TgChannel) (keywords : List String)
    (limit daysBack : Nat) (now : Int) :
    (search channels keywords limit daysBack now).length ≤ limit :=
  channelsLoop_length_le _ limit now channels [] (Nat.zero_le limit)

end TelegramScraper

namespace FacebookScraper

theorem facebookSearch_length_le (pages : List FbPage) (feeds : List (String × List FbRssEntry))
    (keywords : List String) (limit daysBack : Nat) (now : Int) :
    (search pages feeds keywords limit daysBack now).fst.length ≤ limit := by
  simp only [search]
  split_ifs with h
  · exact List.length_take_le limit _
  · exact List.length_take_le limit _

end FacebookScraper

namespace RSSFeedScraper

theorem entriesLoop_length_le (kw : List String) (srcName : String) (limit : Nat)
    (es : List FeedEntry) : ∀ acc : List NewsArticle, acc.length ≤ limit →
    (entriesLoop kw srcName limit es acc).length ≤ limit := by
  induction es with
  | nil => intro acc h; exact h
  | cons e rest ih =>
    intro acc h
    simp only [entriesLoop]
    split_ifs with h1 h2
    · exact h
    · exact ih _ (by simp only [List.length_append, List.length_cons, List.length_nil]; omega)
    · exact ih acc h

theorem feedsLoop_length_le (kw : List String) (limit : Nat)
    (fs : List (String × List FeedEntry)) : ∀ acc : List NewsArticle, acc.length ≤ limit →
    (feedsLoop kw limit fs acc).length ≤ limit := by
  induction fs with
  | nil => intro acc h; exact h
  | cons f rest ih =>
    intro acc h
    simp only [feedsLoop]
    exact ih _ (entriesLoop_length_le kw f.fst limit f.snd acc h)

theorem rssSearch_length_le (feeds : List (String × List FeedEntry)) (keywords : List String)
    (limit : Nat) : (search feeds keywords limit).length ≤ limit :=
  feedsLoop_length_le keywords limit feeds [] (Nat.zero_le limit)

end RSSFeedScraper

/-- C4: for every adapter, one invocation of its search returns at most the
requested limit L items, counting the items of all cascade steps together
(stated for every L, in particular every positive L). -/
theorem adapters_never_exceed_limit
    (inst : Option RedditScraper.RedditWorld)
    (snrun : List String → Option String → Nat → Except String (List TwitterScraper.Tweet))
    (accounts : List (String × List TwitterScraper.PwTweet))
    (channels : List TelegramScraper.TgChannel)
    (pages : List FacebookScraper.FbPage)
    (fbFeeds : List (String × List FacebookScraper.FbRssEntry))
    (newsFeeds : List (String × List RSSFeedScraper.FeedEntry))
    (keywords : List String) (location : Option String) (L daysBack : Nat) (now : Int) :
    (RedditScraper.search inst keywords L daysBack now).fst.length ≤ L
    ∧ (TwitterScraper.search snrun accounts keywords location L daysBack now).fst.length ≤ L
    ∧ (TelegramScraper.search channels keywords L daysBack now).length ≤ L
    ∧ (FacebookScraper.search pages fbFeeds keywords L daysBack now).fst.length ≤ L
    ∧ (RSSFeedScraper.search newsFeeds keywords L).length ≤ L :=
  ⟨RedditScraper.redditSearch_length_le inst keywords L daysBack now,
   TwitterScraper.twitterSearch_length_le snrun accounts keywords location L daysBack now,
   TelegramScraper.telegramSearch_length_le channels keywords L daysBack now,
   FacebookScraper.facebookSearch_length_le pages fbFeeds keywords L daysBack now,
   RSSFeedScraper.rssSearch_length_le newsFeeds keywords L⟩

/-! ## Facebook post shape: source tag, author provenance, truncation -/

theorem strTake_length_le (n : Nat) (s : String) : (strTake n s).length ≤ n := by
  show (s.data.take n).length ≤ n
  exact List.length_take_le n s.data

namespace FacebookScraper

theorem mkFbPost_shape (content pageName pageUrl : String) (now : Int) :
    (mkFbPost content pageName pageUrl now).source = "facebook"
    ∧ (mkFbPost content pageName pageUrl now).author = pageName
    ∧ (mkFbPost content pageName pageUrl now).content.length ≤ 1000 :=
  ⟨rfl, rfl, strTake_length_le 1000 content⟩

theorem mkFbRssPost_shape (e : FbRssEntry) (srcName : String) (published : Int) :
    (mkFbRssPost e srcName published).source = "facebook"
    ∧ (mkFbRssPost e srcName published).author = srcName
    ∧ (mkFbRssPost e srcName published).content.length ≤ 1000 :=
  ⟨rfl, rfl, strTake_length_le 1000 _⟩

theorem postsLoop_mem (kw : List String) (pageName pageUrl : String) (limit : Nat) (now : Int)
    (texts : List String) : ∀ acc p, p ∈ postsLoop kw pageName pageUrl limit now texts acc →
    p ∈ acc ∨ (p.source = "facebook" ∧ p.author = pageName ∧ p.content.length ≤ 1000) := by
  induction texts with
  | nil => intro acc p hp; exact Or.inl hp
  | cons t rest ih =>
    intro acc p hp
    simp only [postsLoop] at hp
    split_ifs at hp with h1 h2 h3 h4 h5
    · exact Or.inl hp
    · exact ih acc p hp
    · exact ih acc p hp
    · rcases ih _ p hp with hin | hok
      · rcases List.mem_append.mp hin with h | h
        · exact Or.inl h
        · obtain rfl := List.mem_singleton.mp h
          exact Or.inr (mkFbPost_shape t pageName pageUrl now)
      · exact Or.inr hok
    · exact ih acc p hp
    · rcases ih _ p hp with hin | hok
      · rcases List.mem_append.mp hin with h | h
        · exact Or.inl h
        · obtain rfl := List.mem_singleton.mp h
          exact Or.inr (mkFbPost_shape t pageName pageUrl now)
      · exact Or.inr hok

theorem pagesLoop_mem (kw : List String) (limit : Nat) (now : Int) (pages : List FbPage) :
    ∀ acc p, p ∈ pagesLoop kw limit now pages acc →
    p ∈ acc ∨ (p.source = "facebook" ∧ p.author ∈ pages.map FbPage.name
               ∧ p.content.length ≤ 1000) := by
  induction pages with
  | nil => intro acc p hp; exact Or.inl hp
  | cons pg rest ih =>
    intro acc p hp
    simp only [pagesLoop] at hp
    split_ifs at hp with h1
    · exact Or.inl hp
    · rcases ih _ p hp with hin | ⟨hs, ha, hc⟩
      · rcases postsLoop_mem kw pg.name pg.pageUrl limit now pg.texts acc p hin with h | ⟨hs, ha, hc⟩
        · exact Or.inl h
        · exact Or.inr ⟨hs, by simp [ha], hc⟩
      · exact Or.inr ⟨hs, by simp only [List.map_cons, List.mem_cons]; exact Or.inr ha, hc⟩

theorem rssEntryLoop_mem (kw : List String) (srcName : String) (limit : Nat) (cutoff now : Int)
    (es : List FbRssEntry) : ∀ acc p, p ∈ rssEntryLoop kw srcName limit cutoff now es acc →
    p ∈ acc ∨ (p.source = "facebook" ∧ p.author = srcName ∧ p.content.length ≤ 1000) := by
  induction es with
  | nil => intro acc p hp; exact Or.inl hp
  | cons e rest ih =>
    intro acc p hp
    simp only [rssEntryLoop] at hp
    split_ifs at hp with h1 h2 h3 h4 h5 h6 h7
    · exact Or.inl hp
    · exact ih acc p hp
    · exact ih acc p hp
    · exact ih acc p hp
    · rcases ih _ p hp with hin | hok
      · rcases List.mem_append.mp hin with h | h
        · exact Or.inl h
        · obtain rfl := List.mem_singleton.mp h
          exact Or.inr (mkFbRssPost_shape e srcName _)
      · exact Or.inr hok
    · exact ih acc p hp
    · exact ih acc p hp
    · rcases ih _ p hp with hin | hok
      · rcases List.mem_append.mp hin with h | h
        · exact Or.inl h
        · obtain rfl := List.mem_singleton.mp h
          exact Or.inr (mkFbRssPost_shape e srcName _)
      · exact Or.inr hok

theorem rssFeedsLoop_mem (kw : List String) (limit : Nat) (cutoff now : Int)
    (feeds : List (String × List FbRssEntry)) :
    ∀ acc p, p ∈ rssFeedsLoop kw limit cutoff now feeds acc →
    p ∈ acc ∨ (p.source = "facebook" ∧ p.author ∈ feeds.map Prod.fst
               ∧ p.content.length ≤ 1000) := by
  induction feeds with
  | nil => intro acc p hp; exact Or.inl hp
  | cons f rest ih =>
    intro acc p hp
    simp only [rssFeedsLoop] at hp
    split_ifs at hp with h1
    · exact Or.inl hp
    · rcases ih _ p hp with hin | ⟨hs, ha, hc⟩
      · rcases rssEntryLoop_mem kw f.fst limit cutoff now f.snd acc p hin with h | ⟨hs, ha, hc⟩
        · exact Or.inl h
        · exact Or.inr ⟨hs, by simp [ha], hc⟩
      · exact Or.inr ⟨hs, by simp only [List.map_cons, List.mem_cons]; exact Or.inr ha, hc⟩

theorem scrapeRssFeeds_mem (kw : List String) (feeds : List (String × List FbRssEntry))
    (limit daysBack : Nat) (now : Int) :
    ∀ p ∈ scrapeRssFeeds kw feeds limit daysBack now,
      p.source = "facebook" ∧ p.author ∈ feeds.map Prod.fst ∧ p.content.length ≤ 1000 := by
  intro p hp
  simp only [scrapeRssFeeds] at hp
  rcases rssFeedsLoop_mem kw limit _ now feeds [] p hp with h | hok
  · simp at h
  · exact hok

theorem search_mem (pages : List FbPage) (feeds : List (String × List FbRssEntry))
    (keywords : List String) (limit daysBack : Nat) (now : Int) :
    ∀ p ∈ (search pages feeds keywords limit daysBack now).fst,
      p.source = "facebook"
      ∧ p.author ∈ (pages.map FbPage.name ++ feeds.map Prod.fst)
      ∧ p.content.length ≤ 1000 := by
  intro p hp
  simp only [search, scrapeFacebook] at hp
  split_ifs at hp with h
  · have hp2 := List.take_subset _ _ hp
    rcases List.mem_append.mp hp2 with h1 | h2
    · rcases pagesLoop_mem _ limit now pages [] p h1 with h | ⟨hs, ha, hc⟩
      · simp at h
      · exact ⟨hs, List.mem_append_left _ ha, hc⟩
    · have := scrapeRssFeeds_mem _ feeds _ daysBack now p h2
      exact ⟨this.1, List.mem_append_right _ this.2.1, this.2.2⟩
  · have hp2 := List.take_subset _ _ hp
    rcases pagesLoop_mem _ limit now pages [] p hp2 with h | ⟨hs, ha, hc⟩
    · simp at h
    · exact ⟨hs, List.mem_append_left _ ha, hc⟩

end FacebookScraper

/-! ## Orchestrator characterization -/

/-- The merge loop of `scrape_data`, computed: the social list is the
concatenation of the four social outcomes' items in registration order, the
news list is RSS's items, and stats holds one entry per source in order,
0 for a failed outcome and the item count otherwise. -/
theorem scrape_data_eq (oR oTw oTe oFb : Except String (List SocialMediaPost))
    (oRss : Except String (List NewsArticle)) :
    scrape_data oR oTw oTe oFb oRss =
      { social_media_posts := itemsOf oR ++ itemsOf oTw ++ itemsOf oTe ++ itemsOf oFb
      , news_articles := itemsOf oRss
      , stats := [("Reddit", statOf oR), ("Twitter", statOf oTw), ("Telegram", statOf oTe),
                  ("Facebook", statOf oFb), ("RSS", statOf oRss)] } := by
  cases oR <;> cases oTw <;> cases oTe <;> cases oFb <;> cases oRss <;>
    simp [scrape_data, processResult, itemsOf, statOf, Payload.count, Payload.postList,
          Payload.articleList, source_names, List.enum, List.enumFrom, Except.map]

/-! ## Claim C6 -/

/-- C6: for every query, the Report built by scrape_data has
social_media_posts equal to the concatenation of the Reddit, Twitter,
Telegram and Facebook outputs in that fixed registration order (each
adapter's output kept contiguous, not interleaved), news_articles equal to
the RSS output, and stats holding one entry for each of the five configured
sources equal to the number of items that source returned (0 if it
failed). -/
theorem scrape_data_report_composition
    (oR oTw oTe oFb : Except String (List SocialMediaPost))
    (oRss : Except String (List NewsArticle)) :
    (scrape_data oR oTw oTe oFb oRss).social_media_posts
        = itemsOf oR ++ itemsOf oTw ++ itemsOf oTe ++ itemsOf oFb
    ∧ (scrape_data oR oTw oTe oFb oRss).news_articles = itemsOf oRss
    ∧ (scrape_data oR oTw oTe oFb oRss).stats
        = [("Reddit", statOf oR), ("Twitter", statOf oTw), ("Telegram", statOf oTe),
           ("Facebook", statOf oFb), ("RSS", statOf oRss)] := by
  rw [scrape_data_eq]
  exact ⟨rfl, rfl, rfl⟩

/-! ## Claim C1 -/

/-- C1: if one of the five adapter tasks raises an exception, scrape_data
still returns a Report containing, unchanged and complete, the items of
every other adapter, records 0 for the failing source, and the exception
does not propagate (the merge is a total function of the gathered
outcomes).  Stated for each of the five positions failing. -/
theorem scrape_data_isolates_failures (e : String)
    (r tw te fb : List SocialMediaPost) (ra : List NewsArticle) :
    scrape_data (Except.error e) (Except.ok tw) (Except.ok te) (Except.ok fb) (Except.ok ra)
      = { social_media_posts := tw ++ te ++ fb, news_articles := ra
        , stats := [("Reddit", 0), ("Twitter", tw.length), ("Telegram", te.length),
                    ("Facebook", fb.length), ("RSS", ra.length)] }
    ∧ scrape_data (Except.ok r) (Except.error e) (Except.ok te) (Except.ok fb) (Except.ok ra)
      = { social_media_posts := r ++ te ++ fb, news_articles := ra
        , stats := [("Reddit", r.length), ("Twitter", 0), ("Telegram", te.length),
                    ("Facebook", fb.length), ("RSS", ra.length)] }
    ∧ scrape_data (Except.ok r) (Except.ok tw) (Except.error e) (Except.ok fb) (Except.ok ra)
      = { social_media_posts := r ++ tw ++ fb, news_articles := ra
        , stats := [("Reddit", r.length), ("Twitter", tw.length), ("Telegram", 0),
                    ("Facebook", fb.length), ("RSS", ra.length)] }
    ∧ scrape_data (Except.ok r) (Except.ok tw) (Except.ok te) (Except.error e) (Except.ok ra)
      = { social_media_posts := r ++ tw ++ te, news_articles := ra
        , stats := [("Reddit", r.length), ("Twitter", tw.length), ("Telegram", te.length),
                    ("Facebook", 0), ("RSS", ra.length)] }
    ∧ scrape_data (Except.ok r) (Except.ok tw) (Except.ok te) (Except.ok fb) (Except.error e)
      = { social_media_posts := r ++ tw ++ te ++ fb, news_articles := []
        , stats := [("Reddit", r.length), ("Twitter", tw.length), ("Telegram", te.length),
                    ("Facebook", fb.length), ("RSS", 0)] } := by
  refine ⟨?_, ?_, ?_, ?_, ?_⟩ <;> (rw [scrape_data_eq]; simp [itemsOf, statOf])

/-! ## Claim C8 -/

theorem reddit_search_none_eq (keywords : List String) (limit daysBack : Nat) (now : Int) :
    (RedditScraper.search none keywords limit daysBack now).fst = [] := by
  simp only [RedditScraper.search, RedditScraper.searchSubreddits, RedditScraper.searchTopPosts]
  split_ifs <;> rfl

/-- C8 counterexample: with the praw instance unavailable (missing
credentials), the Reddit invocation reaches the orchestrator as an empty
success, not as a Failed outcome: `_get_reddit_instance` catches the
exception and `_search_subreddits` / `_search_top_posts` return empty
lists, so the task completes normally. -/
theorem reddit_setup_error_is_empty_success :
    redditInvocationOutcome none ["breach"] 50 7 1000000 = Except.ok []
    ∧ isFailedOutcome (redditInvocationOutcome none ["breach"] 50 7 1000000) = false :=
  ⟨rfl, rfl⟩

/-- C8 (amended): an adapter setup failure (no praw instance) is absorbed
into an empty success: the invocation outcome is ok [], the orchestrator
still records stats["Reddit"] = 0 (as the count of an empty list), and the
overall request succeeds with the data of the remaining sources intact. -/
theorem reddit_setup_error_absorbed (keywords : List String) (limit daysBack : Nat) (now : Int)
    (tw te fb : List SocialMediaPost) (ra : List NewsArticle) :
    redditInvocationOutcome none keywords limit daysBack now = Except.ok []
    ∧ scrape_data (redditInvocationOutcome none keywords limit daysBack now)
        (Except.ok tw) (Except.ok te) (Except.ok fb) (Except.ok ra)
      = { social_media_posts := tw ++ te ++ fb, news_articles := ra
        , stats := [("Reddit", 0), ("Twitter", tw.length), ("Telegram", te.length),
                    ("Facebook", fb.length), ("RSS", ra.length)] } := by
  have h : redditInvocationOutcome none keywords limit daysBack now = Except.ok [] := by
    simp [redditInvocationOutcome, reddit_search_none_eq]
  refine ⟨h, ?_⟩
  rw [h, scrape_data_eq]
  simp [itemsOf, statOf]

/-! ## Claim C7 -/

/-- C7 (amended): every post produced by the Facebook adapter (both the
direct path and the RSS fallback) has its content truncated to at most 1000
characters; the other social adapters (see the counterexample) store
content untruncated. -/
theorem facebook_content_truncated (pages : List FacebookScraper.FbPage)
    (feeds : List (String × List FacebookScraper.FbRssEntry))
    (keywords : List String) (limit daysBack : Nat) (now : Int) (p : SocialMediaPost)
    (hp : p ∈ (FacebookScraper.search pages feeds keywords limit daysBack now).fst) :
    p.content.length ≤ 1000 :=
  (FacebookScraper.search_mem pages feeds keywords limit daysBack now p hp).2.2

/-- A long self-text post: title matches the keyword, body is 1500
characters. -/
def longBody : String := String.mk (List.replicate 1500 'a')

def longRedditPost : RedditScraper.RedditPost :=
  { title := "data breach today now", selftext := longBody, created_utc := 999999
  , authorName := "u1", score := 1, numComments := 0, permalink := "/r/x/1"
  , linkUrl := none, galleryUrls := [] }

def longRedditWorld : RedditScraper.RedditWorld :=
  { subreddits := [[[longRedditPost]]], topSearch := [] }

set_option maxRecDepth 8000 in
/-- C7 counterexample: the Reddit adapter stores a 1523-character content
(title + blank line + 1500-character selftext) with no truncation, so not
every adapter bounds content to about 1000 characters. -/
theorem reddit_content_exceeds_thousand :
    ((RedditScraper.search (some longRedditWorld) ["breach"] 50 7 1000000).fst.map
      (fun p => p.content.length)) = [1523] ∧ 1000 < 1523 := by
  constructor
  · decide
  · decide

/-- One RSS fallback entry used for the Facebook witnesses. -/
def wFbEntry : FacebookScraper.FbRssEntry :=
  { title := "Data breach at example corp"
  , textContent := "details of the breach incident run long enough here"
  , published := some 999999
  , link := some "https://example.org/a" }

def wFbFeeds : List (String × List FacebookScraper.FbRssEntry) := [("techcrunch", [wFbEntry])]

def wFbPost : SocialMediaPost := FacebookScraper.mkFbRssPost wFbEntry "techcrunch" 999999

theorem facebook_content_truncated_witness :
    wFbPost ∈ (FacebookScraper.search [] wFbFeeds ["breach"] 5 7 1000000).fst
    ∧ wFbPost.content.length ≤ 1000 :=
  ⟨by decide, facebook_content_truncated [] wFbFeeds ["breach"] 5 7 1000000 wFbPost (by decide)⟩

/-! ## Claim C10 -/

/-- C10: every item returned by FacebookScraper.search carries source =
"facebook"; the RSS-fallback posts in particular carry source = "facebook"
with the configured feed's key name as author; and the orchestrator places
a Facebook outcome's items in social_media_posts (never in news_articles),
so RSS-originated fallback content is indistinguishable in provenance from
genuine Facebook content. -/
theorem facebook_provenance (pages : List FacebookScraper.FbPage)
    (feeds : List (String × List FacebookScraper.FbRssEntry))
    (kw : List String) (L dB : Nat) (now : Int) (p : SocialMediaPost)
    (hp : p ∈ (FacebookScraper.search pages feeds kw L dB now).fst)
    (kw2 : List String) (feeds2 : List (String × List FacebookScraper.FbRssEntry))
    (L2 dB2 : Nat) (now2 : Int) (q : SocialMediaPost)
    (hq : q ∈ FacebookScraper.scrapeRssFeeds kw2 feeds2 L2 dB2 now2)
    (oR oTw oTe : Except String (List SocialMediaPost)) (fbItems : List SocialMediaPost)
    (oRss : Except String (List NewsArticle)) :
    p.source = "facebook"
    ∧ (q.source = "facebook" ∧ q.author ∈ feeds2.map Prod.fst)
    ∧ (scrape_data oR oTw oTe (Except.ok fbItems) oRss).social_media_posts
        = itemsOf oR ++ itemsOf oTw ++ itemsOf oTe ++ fbItems
    ∧ (scrape_data oR oTw oTe (Except.ok fbItems) oRss).news_articles = itemsOf oRss := by
  have h1 := FacebookScraper.search_mem pages feeds kw L dB now p hp
  have h2 := FacebookScraper.scrapeRssFeeds_mem kw2 feeds2 L2 dB2 now2 q hq
  refine ⟨h1.1, ⟨h2.1, h2.2.1⟩, ?_, ?_⟩
  · rw [scrape_data_eq]
    simp [itemsOf]
  · rw [scrape_data_eq]

theorem facebook_provenance_witness :
    wFbPost.source = "facebook"
    ∧ (wFbPost.source = "facebook" ∧ wFbPost.author ∈ wFbFeeds.map Prod.fst)
    ∧ (scrape_data (Except.ok []) (Except.ok []) (Except.ok []) (Except.ok [wFbPost])
        (Except.ok [])).social_media_posts
        = itemsOf (Except.ok []) ++ itemsOf (Except.ok []) ++ itemsOf (Except.ok []) ++ [wFbPost]
    ∧ (scrape_data (Except.ok []) (Except.ok []) (Except.ok []) (Except.ok [wFbPost])
        (Except.ok [])).news_articles = itemsOf (Except.ok ([] : List NewsArticle)) :=
  facebook_provenance [] wFbFeeds ["breach"] 5 7 1000000 wFbPost (by decide)
    ["breach"] wFbFeeds 5 7 1000000 wFbPost (by decide)
    (Except.ok []) (Except.ok []) (Except.ok []) [wFbPost] (Except.ok [])

/-! ## Claim C2 -/

/-- A text containing only a Tier-3 tech term ("app"): no query keyword, no
Tier-2 broader term. -/
def tier3Text : String := "we are shipping a new app for everyone today"

/-- An already-accepted Facebook post, so the accumulator is warmed up. -/
def priorFbPost : SocialMediaPost :=
  FacebookScraper.mkFbPost "previously accepted breach report content here" "CNN"
    "https://m.facebook.com/CNN/" 0

/-- C2 (code bug at facebook.py lines 207-220 and 309-320): a text matching
only a Tier-3 tech term — no query keyword and no Tier-2 broader term — is
still accepted when one item has already been accepted, because the elif
branch includes tech_match; the acceptance condition is identical before
and after warm-up, contradicting the in-code comments ("If we have no
results yet, be more lenient with matching") and the spec's bootstrap
rule. -/
theorem facebook_tier3_accepted_after_warmup :
    (["breach"].map strToLower).any (fun k => occursIn k (strToLower tier3Text)) = false
    ∧ FacebookScraper.broader_terms.any (fun t => occursIn t (strToLower tier3Text)) = false
    ∧ FacebookScraper.tech_terms.any (fun t => occursIn t (strToLower tier3Text)) = true
    ∧ FacebookScraper.postsLoop (["breach"].map strToLower) "CNN" "https://m.facebook.com/CNN/"
        30 0 [tier3Text] [priorFbPost]
      = [priorFbPost, FacebookScraper.mkFbPost tier3Text "CNN" "https://m.facebook.com/CNN/" 0] :=
  ⟨by decide, by decide, by decide, by decide⟩

/-! ## Claim C5 -/

/-- A Telegram message whose datetime attribute is instant 0, far older
than any recent cutoff, and whose content matches the broader keyword
"security". -/
def staleMessage : TelegramScraper.TgMessage :=
  { content := "major security incident reported"
  , datetimeAttr := some 0
  , msgUrl := some "https://t.me/s/secnews1/5"
  , mediaUrls := [] }

def staleChannel : TelegramScraper.TgChannel :=
  { name := "secnews1", accessible := true, messages := [staleMessage] }

/-- C5 (code bug at telegram.py line 57): the search computes a cutoff date
from days_back ("Calculate the cutoff date for filtering posts") but never
applies it; a message whose timestamp 0 is far older than
now - daysBack = 395200 is still returned, and nothing declares the adapter
recency-unsupported (it silently accepts the days_back parameter). -/
theorem telegram_returns_stale_post :
    ((TelegramScraper.search [staleChannel] ["breach"] 30 7 1000000).map
      (fun p => p.timestamp)) = [(0 : Int)]
    ∧ ((0 : Int) < (1000000 : Int) - (7 : Int) * 86400) :=
  ⟨by decide, by decide⟩

/-! ## Claim C3 -/

/-- C3 (amended): the 50%-of-limit cascade threshold is Reddit's rule only.
Reddit never invokes its top-posts fallback when the subreddit step yields
at least 50% of L; Twitter never invokes its Playwright fallback when
snscrape succeeds with at least one item; but Facebook skips its RSS
fallback only when the direct step meets the full limit L, so a primary
yield of at least 50% but below 100% still triggers the fallback. -/
theorem cascade_fallback_thresholds
    (inst : Option RedditScraper.RedditWorld)
    (snrun : List String → Option String → Nat → Except String (List TwitterScraper.Tweet))
    (accounts : List (String × List TwitterScraper.PwTweet))
    (ts : List TwitterScraper.Tweet)
    (pages : List FacebookScraper.FbPage)
    (feeds : List (String × List FacebookScraper.FbRssEntry))
    (kw : List String) (location : Option String) (L dB : Nat) (now : Int) :
    (L ≤ 2 * (RedditScraper.searchSubreddits inst kw L dB now).length →
      (RedditScraper.search inst kw L dB now).snd = false)
    ∧ (snrun kw location dB = Except.ok ts →
        0 < (TwitterScraper.snscrapeLoop L ts []).length →
        (TwitterScraper.search snrun accounts kw location L dB now).snd = false)
    ∧ ((FacebookScraper.search pages feeds kw L dB now).snd = false ↔
        L ≤ (FacebookScraper.scrapeFacebook (kw.map strToLower) pages L
          (now - (dB : Int) * 86400) now).length) := by
  refine ⟨?_, ?_, ?_⟩
  · intro h
    simp only [RedditScraper.search]
    rw [if_neg (by omega)]
  · intro hts h0
    simp only [TwitterScraper.search, hts]
    rw [if_pos h0]
  · constructor
    · intro hf
      by_cases h : (FacebookScraper.scrapeFacebook (kw.map strToLower) pages L
          (now - (dB : Int) * 86400) now).length < L
      · exfalso
        simp only [FacebookScraper.search] at hf
        rw [if_pos h] at hf
        simp at hf
      · omega
    · intro h
      simp only [FacebookScraper.search]
      rw [if_neg (by omega)]

/-- A Facebook page whose two candidate texts both pass the matching. -/
def cexPage : FacebookScraper.FbPage :=
  { name := "CNN"
  , pageUrl := "https://m.facebook.com/CNN/"
  , texts := ["massive data breach reported at example corp",
              "second breach bulletin with more details"] }

/-- C3 counterexample: the Facebook direct step yields exactly 50% of the
requested limit (2 of 4), yet the RSS fallback step is still invoked:
Facebook cascades whenever the primary yield is below 100% of the limit,
not below 50%. -/
theorem facebook_halfYield_still_invokes_fallback :
    4 ≤ 2 * (FacebookScraper.scrapeFacebook (["breach"].map strToLower) [cexPage] 4
        ((1000000 : Int) - (7 : Int) * 86400) 1000000).length
    ∧ (FacebookScraper.search [cexPage] [("techcrunch", [])] ["breach"] 4 7 1000000).snd = true :=
  ⟨by decide, by decide⟩

def wRedditPostA : RedditScraper.RedditPost :=
  { title := "big breach one here", selftext := "", created_utc := 999999
  , authorName := "u1", score := 3, numComments := 1, permalink := "/r/a/1"
  , linkUrl := none, galleryUrls := [] }

def wRedditPostB : RedditScraper.RedditPost :=
  { title := "another breach two", selftext := "", created_utc := 999998
  , authorName := "u2", score := 5, numComments := 0, permalink := "/r/a/2"
  , linkUrl := none, galleryUrls := [] }

def wRedditWorld : RedditScraper.RedditWorld :=
  { subreddits := [[[wRedditPostA, wRedditPostB]]], topSearch := [] }

def wTweet : TwitterScraper.Tweet :=
  { content := "fresh breach details", username := "acct", date := 999999, tweetId := "1"
  , likeCount := 0, replyCount := 0, retweetCount := 0, mediaUrls := [] }

def wSnrun : List String → Option String → Nat → Except String (List TwitterScraper.Tweet) :=
  fun _ _ _ => Except.ok [wTweet]

theorem cascade_fallback_thresholds_witness :
    (RedditScraper.search (some wRedditWorld) ["breach"] 4 7 1000000).snd = false
    ∧ (TwitterScraper.search wSnrun [] ["breach"] none 4 7 1000000).snd = false
    ∧ ((FacebookScraper.search [] [] ["breach"] 4 7 1000000).snd = false ↔
        4 ≤ (FacebookScraper.scrapeFacebook (["breach"].map strToLower) [] 4
          ((1000000 : Int) - (7 : Int) * 86400) 1000000).length) :=
  have h := cascade_fallback_thresholds (some wRedditWorld) wSnrun [] [wTweet] [] []
    ["breach"] none 4 7 1000000
  ⟨h.1 (by decide), h.2.1 rfl (by decide), h.2.2⟩

/-! ## Claim C9 -/

/-- C9: two POST /api/search requests that agree on keywords, location,
days_back and limit_per_source — i.e. are identical except possibly for
asset_class — produce identical results against the same world:
asset_class is accepted but never used to filter. -/
theorem assetClass_is_noop (w : ScrapeWorld) (r1 r2 : SearchRequest)
    (hk : r1.keywords = r2.keywords) (hl : r1.location = r2.location)
    (hd : r1.days_back = r2.days_back) (hs : r1.limit_per_source = r2.limit_per_source) :
    search_with_fields w r1 = search_with_fields w r2 := by
  simp only [search_with_fields, hk, hl, hd, hs]

def emptyWorld : ScrapeWorld :=
  { redditInst := none
  , snscrapeRun := fun _ _ _ => Except.ok []
  , twitterAccounts := []
  , telegramChannels := []
  , facebookPages := []
  , facebookFeeds := []
  , rssFeeds := []
  , now := 0 }

def reqA : SearchRequest :=
  { keywords := ["breach"], location := none, asset_class := some AssetClass.person
  , days_back := 7, limit_per_source := 50 }

def reqB : SearchRequest :=
  { keywords := ["breach"], location := none, asset_class := none
  , days_back := 7, limit_per_source := 50 }

theorem assetClass_is_noop_witness :
    reqA.asset_class ≠ reqB.asset_class
    ∧ search_with_fields emptyWorld reqA = search_with_fields emptyWorld reqB :=
  ⟨by decide, assetClass_is_noop emptyWorld reqA reqB rfl rfl rfl rfl⟩
